import Mathlib

/-!
Shallow embedding of the book-collection store of `src/main.py`
(class `BookCollection`).

The Python object holds an in-memory list `book_list` and mirrors it to a
JSON file `storage_file` on every mutation.  We model the object together
with its environment: the state of the backing file and whether the file
is writable.  Each method returns the resulting state paired with
`Option IOErr`: `none` means the call returned normally, `some e` means a
non-recovered exception `e` propagated to the caller (the state component
then reflects the in-memory mutations that happened before the raise,
exactly as in Python).
-/

/-- One book record: the dictionary built in `add_book` with keys
`title`, `author`, `year`, `genre` (strings) and `read` (boolean). -/
structure Book where
  title : String
  author : String
  year : String
  genre : String
  read : Bool
deriving DecidableEq, Repr

/-- An I/O failure that the store does not recover from
(e.g. `PermissionError` when opening the file). -/
inductive IOErr where
  | permissionDenied
deriving DecidableEq, Repr

/-- The observable state of the backing storage file, at the granularity
the store's operations distinguish:
* `absent`      — no file: `open(..., "r")` raises `FileNotFoundError`;
* `malformed`   — the file exists but its content is not valid JSON:
                  `json.load` raises `json.JSONDecodeError`;
* `valid bs`    — the file holds the JSON serialization of the record
                  list `bs` (what `save_to_file` writes);
* `unreadable`  — opening the file for reading raises an error other
                  than `FileNotFoundError` (e.g. permission denied). -/
inductive FileState where
  | absent
  | malformed
  | valid (bs : List Book)
  | unreadable
deriving DecidableEq, Repr

/-- The store state: the in-memory `book_list` and `storage_file` of the
Python object, plus the environment (file content and writability). -/
structure BookCollection where
  book_list : List Book
  storage_file : String
  file : FileState
  writable : Bool
deriving DecidableEq, Repr

/-- Python's `str.lower()`: lower-case each character. -/
def lowerStr (s : String) : String :=
  ⟨s.data.map Char.toLower⟩

namespace BookCollection

/-- Method `read_from_file` (src/main.py lines 14-21): load the file into
`book_list`; `FileNotFoundError` and `json.JSONDecodeError` are caught
and replaced by the empty list; any other error propagates, leaving
`book_list` untouched. -/
def read_from_file (st : BookCollection) : BookCollection × Option IOErr :=
  match st.file with
  | .absent => ({ st with book_list := [] }, none)
  | .malformed => ({ st with book_list := [] }, none)
  | .valid bs => ({ st with book_list := bs }, none)
  | .unreadable => (st, some .permissionDenied)

/-- Method `save_to_file` (src/main.py lines 23-26): overwrite the file with the
JSON serialization of the current `book_list`; an error opening the file
for writing propagates. -/
def save_to_file (st : BookCollection) : BookCollection × Option IOErr :=
  if st.writable then ({ st with file := .valid st.book_list }, none)
  else (st, some .permissionDenied)

/-- Method `add_book` (src/main.py lines 28-38): append the new record built
from the five inputs, then save. -/
def add_book (st : BookCollection) (title author year genre : String)
    (read : Bool) : BookCollection × Option IOErr :=
  let new_book : Book :=
    { title := title, author := author, year := year, genre := genre,
      read := read }
  save_to_file { st with book_list := st.book_list ++ [new_book] }

/-- Method `delete_book` (src/main.py lines 40-43): keep exactly the records
whose lower-cased title differs from the lower-cased input, then save. -/
def delete_book (st : BookCollection) (title : String) :
    BookCollection × Option IOErr :=
  save_to_file
    { st with
      book_list :=
        st.book_list.filter (fun book =>
          lowerStr book.title != lowerStr title) }

/-- Python's substring test `needle in haystack` on strings. -/
def strContains (haystack needle : String) : Bool :=
  decide (needle.data <:+: haystack.data)

/-- Method `find_books` (src/main.py lines 45-47): the records whose lower-cased
title or author contains the lower-cased search text as a substring. -/
def find_books (st : BookCollection) (search_text : String) : List Book :=
  st.book_list.filter (fun book =>
    strContains (lowerStr book.title) (lowerStr search_text) ||
    strContains (lowerStr book.author) (lowerStr search_text))

/-- Method `get_books` (src/main.py lines 49-51). -/
def get_books (st : BookCollection) : List Book :=
  st.book_list

/-- Method `get_reading_progress` (src/main.py lines 53-58): the pair of the
total count and the completion percentage, with real (Python float)
division embedded as division in `ℚ`. -/
def get_reading_progress (st : BookCollection) : Nat × ℚ :=
  let total_books := st.book_list.length
  let completed_books := st.book_list.countP (fun book => book.read)
  let completion_rate : ℚ :=
    if total_books > 0 then
      (completed_books : ℚ) / (total_books : ℚ) * 100
    else 0
  (total_books, completion_rate)

/-- Constructor `__init__` (src/main.py lines 8-12): empty list, fixed storage path,
then `read_from_file`.  The file state and writability of the
environment are parameters. -/
def init (fs : FileState) (w : Bool) : BookCollection × Option IOErr :=
  read_from_file
    { book_list := [], storage_file := "books_data.json", file := fs,
      writable := w }

end BookCollection

/-!
A finer model of `read_from_file`, at the granularity of JSON values.
`json.load` parses the file as *arbitrary* JSON, with no check that the
result is a list of book records; whatever value it returns becomes
`self.book_list`.  This layer distinguishes a file whose content is valid
JSON of the wrong shape from one that is not JSON at all.
-/

/-- A JSON value (the fragment relevant to this program). -/
inductive Json where
  | null
  | num (n : Int)
  | str (s : String)
  | bool (b : Bool)
  | arr (xs : List Json)
  | obj (kvs : List (String × Json))

/-- File content as seen by `open` + `json.load`:
* `absent`     — `open` raises `FileNotFoundError`;
* `unreadable` — `open` raises some other error (e.g. permission denied);
* `notJson`    — the text does not parse: `json.load` raises
                 `json.JSONDecodeError`;
* `parses j`   — `json.load` returns the JSON value `j`. -/
inductive FileContentJ where
  | absent
  | unreadable
  | notJson
  | parses (j : Json)

/-- Method `read_from_file` at JSON granularity: the value assigned to
`self.book_list` (a Python list is the JSON array of its elements), or
the propagated error.  Only `FileNotFoundError` and `JSONDecodeError`
are caught; a successfully parsed JSON value is stored as-is. -/
def read_from_file_json (fc : FileContentJ) : Except IOErr Json :=
  match fc with
  | .absent => .ok (.arr [])
  | .notJson => .ok (.arr [])
  | .parses j => .ok j
  | .unreadable => .error .permissionDenied

/-- The JSON serialization of one record, as `save_to_file` writes it. -/
def encodeBook (b : Book) : Json :=
  .obj [("title", .str b.title), ("author", .str b.author),
        ("year", .str b.year), ("genre", .str b.genre),
        ("read", .bool b.read)]

/-- The JSON serialization of a record list, as `save_to_file` writes it. -/
def encodeBooks (bs : List Book) : Json :=
  .arr (bs.map encodeBook)

/-- Modelled from the spec: "attempts to parse the file's content as a
sequence of BookRecord" — the spec-side notion of a JSON value being a
well-formed book record (an object with the five expected fields).  The
source has no such check; this definition exists to compare the spec's
words with what the code does. -/
def decodeBook (j : Json) : Option Book :=
  match j with
  | .obj kvs =>
    match kvs.lookup "title", kvs.lookup "author", kvs.lookup "year",
        kvs.lookup "genre", kvs.lookup "read" with
    | some (.str t), some (.str a), some (.str y), some (.str g),
        some (.bool r) =>
      some { title := t, author := a, year := y, genre := g, read := r }
    | _, _, _, _, _ => none
  | _ => none

/-- Modelled from the spec: parsing a list of JSON values as book
records, failing if any element fails. -/
def decodeBookList (js : List Json) : Option (List Book) :=
  match js with
  | [] => some []
  | j :: rest =>
    match decodeBook j, decodeBookList rest with
    | some b, some bs => some (b :: bs)
    | _, _ => none

/-- Modelled from the spec: parsing a JSON value as a sequence of
BookRecord. -/
def decodeBooks (j : Json) : Option (List Book) :=
  match j with
  | .arr xs => decodeBookList xs
  | _ => none

/-! ### Sample data for concrete instantiations -/

/-- The Dune record from the spec's scenario. -/
def bookDune : Book :=
  { title := "Dune", author := "Herbert", year := "1965", genre := "Sci-Fi",
    read := false }

/-- The Hobbit record from the spec's scenario. -/
def bookHobbit : Book :=
  { title := "Hobbit", author := "Tolkien", year := "1937",
    genre := "Fantasy", read := true }

/-- A sample in-sync store holding the two scenario records. -/
def sampleStore : BookCollection :=
  { book_list := [bookDune, bookHobbit],
    storage_file := "books_data.json",
    file := .valid [bookDune, bookHobbit],
    writable := true }

/-- The Emma record: a third, unread sample record. -/
def bookEmma : Book :=
  { title := "Emma", author := "Austen", year := "1815", genre := "Classic",
    read := false }

/-- A store with an empty collection, in sync with its file. -/
def emptyStore : BookCollection :=
  { book_list := [], storage_file := "books_data.json",
    file := .valid [], writable := true }

/-- A store with three records of which exactly one is read. -/
def threeStore : BookCollection :=
  { book_list := [bookDune, bookHobbit, bookEmma],
    storage_file := "books_data.json",
    file := .valid [bookDune, bookHobbit, bookEmma],
    writable := true }

/-- One `add_book` call with the fields of `b`, keeping the resulting
state (in Python the object is mutated whether or not the save threw). -/
def applyAdd (st : BookCollection) (b : Book) : BookCollection :=
  (st.add_book b.title b.author b.year b.genre b.read).1

/-- A sequence of `add_book` calls, one per record in `bs`. -/
def runAdds (st : BookCollection) (bs : List Book) : BookCollection :=
  bs.foldl applyAdd st

/-! ### Supporting lemmas -/

namespace BookCollection

theorem save_to_file_of_writable (st : BookCollection)
    (h : st.writable = true) :
    st.save_to_file = ({ st with file := .valid st.book_list }, none) := by
  simp [save_to_file, h]

theorem save_to_file_of_not_writable (st : BookCollection)
    (h : st.writable = false) :
    st.save_to_file = (st, some .permissionDenied) := by
  simp [save_to_file, h]

theorem save_to_file_book_list (st : BookCollection) :
    st.save_to_file.1.book_list = st.book_list := by
  by_cases h : st.writable = true
  · simp [save_to_file_of_writable st h]
  · simp [save_to_file_of_not_writable st (by simpa using h)]

end BookCollection

/-- Serialization followed by parsing as a sequence of BookRecord is the
identity: what `save_to_file` writes is exactly what the spec's
"sequence of BookRecord" shape describes. -/
theorem decodeBooks_encodeBooks (bs : List Book) :
    decodeBooks (encodeBooks bs) = some bs := by
  have hbook : ∀ b : Book, decodeBook (encodeBook b) = some b := by
    intro b
    simp [decodeBook, encodeBook, List.lookup]
  induction bs with
  | nil => simp [encodeBooks, decodeBooks, decodeBookList]
  | cons b rest ih =>
    have ih' : decodeBookList (rest.map encodeBook) = some rest := by
      simpa [encodeBooks, decodeBooks] using ih
    simp [encodeBooks, decodeBooks, decodeBookList, hbook b, ih']

/-! ### Claims -/

/-- C1: after any successful `add_book` or `delete_book` call returns,
the storage file holds exactly the JSON serialization of the in-memory
`book_list` (on-disk and in-memory collections never diverge between
mutations within one process). -/
theorem mutation_syncs_file (st : BookCollection)
    (t a y g : String) (r : Bool) (u : String) :
    ((st.add_book t a y g r).2 = none →
      (st.add_book t a y g r).1.file
        = .valid (st.add_book t a y g r).1.book_list)
    ∧ ((st.delete_book u).2 = none →
      (st.delete_book u).1.file
        = .valid (st.delete_book u).1.book_list) := by
  by_cases h : st.writable = true <;>
    simp_all [BookCollection.add_book, BookCollection.delete_book,
      BookCollection.save_to_file]

/-- Witness for C1 at a concrete store and inputs. -/
theorem mutation_syncs_file_witness :
    (sampleStore.delete_book "dune").2 = none
    ∧ (sampleStore.delete_book "dune").1.file
        = .valid (sampleStore.delete_book "dune").1.book_list :=
  ⟨by decide,
   (mutation_syncs_file sampleStore "X" "Y" "Z" "W" false "dune").2
     (by decide)⟩

/-- C7: for all inputs (empty strings included — no validation, no
duplicate check), `add_book` appends exactly one record built from the
inputs to the end of the collection, leaves every existing record
unchanged and in place, and then persists. -/
theorem add_book_appends (st : BookCollection)
    (title author year genre : String) (rd : Bool) :
    (st.add_book title author year genre rd).1.book_list
      = st.book_list
          ++ [{ title := title, author := author, year := year,
                genre := genre, read := rd }]
    ∧ (st.add_book title author year genre rd).1.book_list.length
        = st.book_list.length + 1
    ∧ (st.add_book title author year genre rd).1.book_list.take
        st.book_list.length = st.book_list
    ∧ (st.writable = true →
        (st.add_book title author year genre rd).2 = none
        ∧ (st.add_book title author year genre rd).1.file
            = .valid (st.add_book title author year genre rd).1.book_list) := by
  refine ⟨?_, ?_, ?_, fun hw => ?_⟩ <;>
    by_cases h : st.writable = true <;>
      simp_all [BookCollection.add_book, BookCollection.save_to_file]

/-- Witness for C7: adding a record with empty title and author to a
concrete store. -/
theorem add_book_appends_witness :
    (sampleStore.add_book "" "" "" "" false).2 = none
    ∧ (sampleStore.add_book "" "" "" "" false).1.book_list
        = [bookDune, bookHobbit,
           { title := "", author := "", year := "", genre := "",
             read := false }] :=
  ⟨((add_book_appends sampleStore "" "" "" "" false).2.2.2 rfl).1,
   (add_book_appends sampleStore "" "" "" "" false).1⟩

/-- C8: `delete_book` is idempotent — deleting the same title twice
yields the same collection as deleting it once — and when no record
matches the title, the collection is unchanged. -/
theorem delete_book_idempotent (st : BookCollection) (t : String) :
    (((st.delete_book t).1.delete_book t).1.book_list
        = (st.delete_book t).1.book_list)
    ∧ ((∀ b ∈ st.book_list, lowerStr b.title ≠ lowerStr t) →
        (st.delete_book t).1.book_list = st.book_list) := by
  constructor
  · by_cases h : st.writable = true <;>
      simp_all [BookCollection.delete_book, BookCollection.save_to_file,
        List.filter_filter]
  · intro hnone
    have hfix : st.book_list.filter
        (fun b => lowerStr b.title != lowerStr t) = st.book_list :=
      List.filter_eq_self.mpr fun b hb => by simpa using hnone b hb
    by_cases h : st.writable = true <;>
      simp_all [BookCollection.delete_book, BookCollection.save_to_file]

/-- Witness for C8 at a concrete store and a title matching nothing. -/
theorem delete_book_idempotent_witness :
    (sampleStore.delete_book "Emma").1.book_list = sampleStore.book_list :=
  (delete_book_idempotent sampleStore "Emma").2 (by decide)

/-- C9: `find_books` with the empty search string does not fail and
returns the full collection in insertion order (the empty string is a
substring of every title). -/
theorem find_books_empty_string (st : BookCollection) :
    st.find_books "" = st.book_list := by
  refine List.filter_eq_self.mpr fun b _ => ?_
  have h : (lowerStr "").data = [] := rfl
  simp [BookCollection.strContains, h, List.nil_infix]

/-- C2: `delete_book t` replaces the collection with exactly the ordered
subsequence of records whose title does not equal `t` case-insensitively
— every case-insensitive match is removed, every non-matching record is
kept with its multiplicity and in the original relative order — and then
persists. -/
theorem delete_book_filters (st : BookCollection) (t : String) :
    (st.delete_book t).1.book_list
        = st.book_list.filter (fun b => lowerStr b.title != lowerStr t)
    ∧ ((st.delete_book t).1.book_list).Sublist st.book_list
    ∧ (∀ b ∈ (st.delete_book t).1.book_list,
        lowerStr b.title ≠ lowerStr t)
    ∧ (∀ b : Book, lowerStr b.title ≠ lowerStr t →
        (st.delete_book t).1.book_list.count b = st.book_list.count b)
    ∧ (st.writable = true →
        (st.delete_book t).2 = none
        ∧ (st.delete_book t).1.file
            = .valid (st.delete_book t).1.book_list) := by
  have hbl : (st.delete_book t).1.book_list
      = st.book_list.filter (fun b => lowerStr b.title != lowerStr t) := by
    unfold BookCollection.delete_book
    exact BookCollection.save_to_file_book_list _
  refine ⟨hbl, ?_, ?_, ?_, fun hw => ?_⟩
  · exact hbl ▸ List.filter_sublist _
  · intro b hb
    rw [hbl] at hb
    simpa using List.of_mem_filter hb
  · intro b hb
    rw [hbl]
    exact List.count_filter (by simpa using hb)
  · constructor <;>
      simp [BookCollection.delete_book, BookCollection.save_to_file, hw]

/-- Witness for C2: in the spec's scenario, deleting "dune" keeps the
non-matching Hobbit record with its multiplicity. -/
theorem delete_book_filters_witness :
    lowerStr bookHobbit.title ≠ lowerStr "dune"
    ∧ (sampleStore.delete_book "dune").1.book_list.count bookHobbit
        = sampleStore.book_list.count bookHobbit :=
  ⟨by decide,
   (delete_book_filters sampleStore "dune").2.2.2.1 bookHobbit (by decide)⟩

/-- C6: for every non-empty search string, `find_books` returns the
ordered subsequence of records whose title or author contains the search
text case-insensitively (every matching record kept with its
multiplicity and relative order), and the empty sequence — not an error
— when nothing matches.  In the embedding `find_books` is a pure
function of the store: it returns a fresh list and cannot mutate the
collection. -/
theorem find_books_substring (st : BookCollection) (s : String)
    (hs : s ≠ "") :
    st.find_books s
        = st.book_list.filter (fun b =>
            BookCollection.strContains (lowerStr b.title) (lowerStr s) ||
            BookCollection.strContains (lowerStr b.author) (lowerStr s))
    ∧ (st.find_books s).Sublist st.book_list
    ∧ (∀ b ∈ st.find_books s,
        (lowerStr s).data <:+: (lowerStr b.title).data
        ∨ (lowerStr s).data <:+: (lowerStr b.author).data)
    ∧ (∀ b : Book,
        ((lowerStr s).data <:+: (lowerStr b.title).data
          ∨ (lowerStr s).data <:+: (lowerStr b.author).data) →
        (st.find_books s).count b = st.book_list.count b)
    ∧ ((∀ b ∈ st.book_list,
          ¬((lowerStr s).data <:+: (lowerStr b.title).data
            ∨ (lowerStr s).data <:+: (lowerStr b.author).data)) →
        st.find_books s = []) := by
  refine ⟨rfl, List.filter_sublist _, ?_, ?_, ?_⟩
  · intro b hb
    have h := List.of_mem_filter hb
    simpa [BookCollection.strContains] using h
  · intro b hb
    exact List.count_filter (by simpa [BookCollection.strContains] using hb)
  · intro hnone
    exact List.filter_eq_nil_iff.mpr fun b hb => by
      simpa [BookCollection.strContains] using hnone b hb

/-- Witness for C6: in the spec's scenario, searching "tolkien" keeps
the Hobbit record (author matches case-insensitively). -/
theorem find_books_substring_witness :
    ("tolkien" : String) ≠ ""
    ∧ (sampleStore.find_books "tolkien").count bookHobbit
        = sampleStore.book_list.count bookHobbit :=
  ⟨by decide,
   (find_books_substring sampleStore "tolkien" (by decide)).2.2.2.1
     bookHobbit (Or.inr (by decide))⟩

/-- C4: `get_reading_progress` returns the pair of the total record
count and the completion rate `100 * readCount / totalCount`, with rate
`0` for the empty collection; concretely `(0, 0)` with no records and
`(3, 100/3)` with three records of which one is read. -/
theorem get_reading_progress_correct (st : BookCollection) :
    st.get_reading_progress.1 = st.book_list.length
    ∧ (st.book_list.length = 0 → st.get_reading_progress = (0, 0))
    ∧ (0 < st.book_list.length →
        st.get_reading_progress.2
          = 100 * (st.book_list.countP (fun b => b.read) : ℚ)
              / (st.book_list.length : ℚ))
    ∧ emptyStore.get_reading_progress = (0, 0)
    ∧ threeStore.get_reading_progress = (3, 100 / 3) := by
  refine ⟨rfl, ?_, ?_, ?_, ?_⟩
  · intro h
    simp [BookCollection.get_reading_progress, h]
  · intro h
    simp only [BookCollection.get_reading_progress, h, if_pos]
    ring
  · rfl
  · have h1 : threeStore.book_list.countP (fun b => b.read) = 1 := by decide
    have h2 : threeStore.book_list.length = 3 := by decide
    simp [BookCollection.get_reading_progress, h1, h2]
    norm_num

/-- Witness for C4 at the spec's two-record scenario (one of two read,
so the rate is 50). -/
theorem get_reading_progress_correct_witness :
    0 < sampleStore.book_list.length
    ∧ sampleStore.get_reading_progress.2
        = 100 * (sampleStore.book_list.countP (fun b => b.read) : ℚ)
            / (sampleStore.book_list.length : ℚ) :=
  ⟨by decide, (get_reading_progress_correct sampleStore).2.2.1 (by decide)⟩

theorem applyAdd_book_list (st : BookCollection) (b : Book) :
    (applyAdd st b).book_list = st.book_list ++ [b] := by
  unfold applyAdd BookCollection.add_book
  exact BookCollection.save_to_file_book_list _

theorem applyAdd_writable (st : BookCollection) (b : Book) :
    (applyAdd st b).writable = st.writable := by
  by_cases h : st.writable = true <;>
    simp_all [applyAdd, BookCollection.add_book, BookCollection.save_to_file]

theorem applyAdd_file (st : BookCollection) (b : Book)
    (hw : st.writable = true) :
    (applyAdd st b).file = .valid (st.book_list ++ [b]) := by
  simp [applyAdd, BookCollection.add_book, BookCollection.save_to_file, hw]

theorem runAdds_book_list (st : BookCollection) (bs : List Book) :
    (runAdds st bs).book_list = st.book_list ++ bs := by
  induction bs generalizing st with
  | nil => simp [runAdds]
  | cons b rest ih =>
    show (runAdds (applyAdd st b) rest).book_list = _
    rw [ih, applyAdd_book_list]
    simp

theorem runAdds_writable (st : BookCollection) (bs : List Book) :
    (runAdds st bs).writable = st.writable := by
  induction bs generalizing st with
  | nil => rfl
  | cons b rest ih =>
    show (runAdds (applyAdd st b) rest).writable = _
    rw [ih, applyAdd_writable]

theorem runAdds_file (st : BookCollection) (bs : List Book)
    (hw : st.writable = true) (hne : bs ≠ []) :
    (runAdds st bs).file = .valid (runAdds st bs).book_list := by
  induction bs generalizing st with
  | nil => exact absurd rfl hne
  | cons b rest ih =>
    show (runAdds (applyAdd st b) rest).file = _
    by_cases hr : rest = []
    · subst hr
      show (applyAdd st b).file = .valid (applyAdd st b).book_list
      rw [applyAdd_file st b hw, applyAdd_book_list]
    · exact ih (applyAdd st b) (by rw [applyAdd_writable]; exact hw) hr

/-- C5: round-trip fidelity — after any non-empty sequence of
`add_book` calls on a writable store, a new store instance constructed
over the same storage file loads a collection equal to the first store's
in-memory collection at the time of its last persist (which is the
original collection with the added records appended). -/
theorem add_roundtrip (st : BookCollection) (bs : List Book)
    (hw : st.writable = true) (hne : bs ≠ []) :
    (BookCollection.init (runAdds st bs).file true).1.book_list
        = (runAdds st bs).book_list
    ∧ (BookCollection.init (runAdds st bs).file true).2 = none
    ∧ (runAdds st bs).book_list = st.book_list ++ bs := by
  have hf := runAdds_file st bs hw hne
  refine ⟨?_, ?_, runAdds_book_list st bs⟩
  · rw [hf]
    rfl
  · rw [BookCollection.init, hf]
    rfl

/-- Witness for C5: two adds on an initially empty writable store. -/
theorem add_roundtrip_witness :
    emptyStore.writable = true
    ∧ ([bookDune, bookHobbit] : List Book) ≠ []
    ∧ (BookCollection.init
        (runAdds emptyStore [bookDune, bookHobbit]).file true).1.book_list
        = (runAdds emptyStore [bookDune, bookHobbit]).book_list :=
  ⟨rfl, by decide,
   (add_roundtrip emptyStore [bookDune, bookHobbit] rfl (by decide)).1⟩

/-- C10: during load, only the missing-file and JSON-decode-error
failures are recovered (to the empty collection); any other error while
opening the storage file propagates to the caller, and in that case the
in-memory collection keeps its prior value (the recovery path does not
run). -/
theorem read_error_propagation (st : BookCollection) :
    (st.file = .unreadable →
      st.read_from_file = (st, some .permissionDenied))
    ∧ (st.file ≠ .unreadable → st.read_from_file.2 = none)
    ∧ (st.file = .absent ∨ st.file = .malformed →
        st.read_from_file.1.book_list = []) := by
  refine ⟨fun h => ?_, fun h => ?_, fun h => ?_⟩
  · simp [BookCollection.read_from_file, h]
  · cases hf : st.file <;> simp_all [BookCollection.read_from_file]
  · cases h with
    | inl h => simp [BookCollection.read_from_file, h]
    | inr h => simp [BookCollection.read_from_file, h]

/-- Witness for C10: a store whose file read raises a non-recovered
error keeps its in-memory collection and propagates the error. -/
theorem read_error_propagation_witness :
    ({ book_list := [bookDune], storage_file := "books_data.json",
       file := .unreadable, writable := true } : BookCollection).read_from_file
      = ({ book_list := [bookDune], storage_file := "books_data.json",
           file := .unreadable, writable := true }, some .permissionDenied) :=
  (read_error_propagation _).1 rfl

/-- C3 counterexample: the file content `5` is valid JSON, so it fails
to parse as a sequence of BookRecord, yet `json.load` succeeds and
`read_from_file` stores the value as-is — the in-memory collection is
not set to the empty list (it is not the serialization of the empty
collection), and no exception is raised. -/
theorem read_malformed_counterexample :
    decodeBooks (Json.num 5) = none
    ∧ read_from_file_json (FileContentJ.parses (Json.num 5))
        = .ok (Json.num 5)
    ∧ Json.num 5 ≠ encodeBooks [] := by
  refine ⟨rfl, rfl, fun h => ?_⟩
  simp [encodeBooks] at h

/-- C3 (amended): on a missing file or content that is not valid JSON
(`json.JSONDecodeError`), load sets the in-memory collection to the
empty list and propagates no exception; content that parses as JSON —
whether or not it is a sequence of BookRecord — is stored as the
collection unchanged, also without an exception.  Every file content
other than a non-recovered read error yields a normal return. -/
theorem read_recovery (fc : FileContentJ) :
    (fc = .absent ∨ fc = .notJson →
      read_from_file_json fc = .ok (encodeBooks []))
    ∧ (∀ j, fc = .parses j → read_from_file_json fc = .ok j)
    ∧ (fc ≠ .unreadable → ∃ j, read_from_file_json fc = .ok j) := by
  refine ⟨fun h => ?_, fun j h => ?_, fun h => ?_⟩
  · cases h with
    | inl h => subst h; rfl
    | inr h => subst h; rfl
  · subst h; rfl
  · cases fc with
    | absent => exact ⟨_, rfl⟩
    | notJson => exact ⟨_, rfl⟩
    | parses j => exact ⟨j, rfl⟩
    | unreadable => exact absurd rfl h

/-- Witness for C3 (amended): the absent-file case recovers to the
serialization of the empty collection. -/
theorem read_recovery_witness :
    (FileContentJ.absent = FileContentJ.absent
      ∨ FileContentJ.absent = FileContentJ.notJson)
    ∧ read_from_file_json FileContentJ.absent = .ok (encodeBooks []) :=
  ⟨Or.inl rfl, (read_recovery FileContentJ.absent).1 (Or.inl rfl)⟩
